import Mathlib

/-
Verification development for the SendForSign MCP server (src/src/index.ts).

The server exposes two tools, sfs_list_templates and sfs_read_template.
Each tool resolves credentials, builds a JSON payload (pruning empty
top-level fields of the data object), issues one HTTP POST to the fixed
template endpoint, and relays the JSON response pretty-printed.

We shallowly embed the JavaScript-level data (JSON values, HTTP headers,
the process environment) and the functions of index.ts, and prove the
specification claims about them.  JavaScript strings are modelled as Lean
strings (the inputs of interest are ASCII, where slice/trim/toLowerCase
agree with Lean's drop/trim/toLower on characters).  `undefined` and
`null` are both modelled by `Json.null` where they flow into values
(the source only distinguishes them via `v == null`, which matches both);
possibly-absent strings are `Option String`.
-/

/-- JSON values as produced by JSON.parse / consumed by JSON.stringify.
Object fields keep insertion order, as JavaScript does for string keys.
Numbers are restricted to integers, which covers every value this
program's payloads and the claims' concrete inputs contain. -/
inductive Json where
  | null : Json
  | bool : Bool → Json
  | num : Int → Json
  | str : String → Json
  | arr : List Json → Json
  | obj : List (String × Json) → Json

/-- Hexadecimal digit character for code points below 16 (lowercase, as
JSON.stringify emits). -/
def hexDigitChar (n : Nat) : Char :=
  if n < 10 then Char.ofNat (48 + n) else Char.ofNat (87 + n)

/-- JSON.stringify escaping of a single character inside a string literal. -/
def jsonEscapeChar (c : Char) : String :=
  if c = '"' then "\\\""
  else if c = '\\' then "\\\\"
  else if c = '\n' then "\\n"
  else if c = '\t' then "\\t"
  else if c = '\r' then "\\r"
  else if c.toNat = 8 then "\\b"
  else if c.toNat = 12 then "\\f"
  else if c.toNat < 32 then
    "\\u00" ++ String.singleton (hexDigitChar (c.toNat / 16)) ++
      String.singleton (hexDigitChar (c.toNat % 16))
  else String.singleton c

/-- A JSON string literal with quotes, as JSON.stringify renders it. -/
def jsonQuote (s : String) : String :=
  "\"" ++ String.join (s.data.map jsonEscapeChar) ++ "\""

mutual

/-- JSON.stringify(v) with no spacing argument: compact serialization. -/
def Json.stringifyCompact : Json → String
  | .null => "null"
  | .bool b => if b then "true" else "false"
  | .num n => toString n
  | .str s => jsonQuote s
  | .arr xs => "[" ++ stringifyCompactList xs ++ "]"
  | .obj kvs => "\x7b" ++ stringifyCompactFields kvs ++ "\x7d"

/-- Comma-separated compact serialization of array elements. -/
def stringifyCompactList : List Json → String
  | [] => ""
  | [x] => Json.stringifyCompact x
  | x :: y :: rest => Json.stringifyCompact x ++ "," ++ stringifyCompactList (y :: rest)

/-- Comma-separated compact serialization of object fields. -/
def stringifyCompactFields : List (String × Json) → String
  | [] => ""
  | [(k, v)] => jsonQuote k ++ ":" ++ Json.stringifyCompact v
  | (k, v) :: y :: rest =>
      jsonQuote k ++ ":" ++ Json.stringifyCompact v ++ "," ++
        stringifyCompactFields (y :: rest)

end

/-- The indentation JSON.stringify(v, null, 2) prefixes at nesting depth d. -/
def jsonIndent (d : Nat) : String := String.join (List.replicate d "  ")

mutual

/-- JSON.stringify(v, null, 2) at nesting depth d. -/
def Json.stringifyPrettyAux (d : Nat) : Json → String
  | .null => "null"
  | .bool b => if b then "true" else "false"
  | .num n => toString n
  | .str s => jsonQuote s
  | .arr [] => "[]"
  | .arr (x :: xs) =>
      "[\n" ++ stringifyPrettyList d (x :: xs) ++ "\n" ++ jsonIndent d ++ "]"
  | .obj [] => "\x7b\x7d"
  | .obj (kv :: kvs) =>
      "\x7b\n" ++ stringifyPrettyFields d (kv :: kvs) ++ "\n" ++ jsonIndent d ++ "\x7d"

/-- Pretty-printed array elements, one per line, comma separated. -/
def stringifyPrettyList (d : Nat) : List Json → String
  | [] => ""
  | [x] => jsonIndent (d + 1) ++ Json.stringifyPrettyAux (d + 1) x
  | x :: y :: rest =>
      jsonIndent (d + 1) ++ Json.stringifyPrettyAux (d + 1) x ++ ",\n" ++
        stringifyPrettyList d (y :: rest)

/-- Pretty-printed object fields, one per line, comma separated. -/
def stringifyPrettyFields (d : Nat) : List (String × Json) → String
  | [] => ""
  | [(k, v)] =>
      jsonIndent (d + 1) ++ jsonQuote k ++ ": " ++ Json.stringifyPrettyAux (d + 1) v
  | (k, v) :: y :: rest =>
      jsonIndent (d + 1) ++ jsonQuote k ++ ": " ++ Json.stringifyPrettyAux (d + 1) v ++
        ",\n" ++ stringifyPrettyFields d (y :: rest)

end

/-- JSON.stringify(v, null, 2), the serialization `asText` uses. -/
def Json.stringifyPretty (j : Json) : String := Json.stringifyPrettyAux 0 j

example : Json.stringifyCompact (Json.obj [("clientKey", Json.str "abc"), ("action", Json.str "list")]) =
    "\x7b\"clientKey\":\"abc\",\"action\":\"list\"\x7d" := by rfl

example : Json.stringifyPretty (Json.obj [("templates", Json.arr [])]) =
    "\x7b\n  \"templates\": []\n\x7d" := by rfl

/-- JSON insignificant whitespace, skipped between tokens by JSON.parse. -/
def skipJsonWs (cs : List Char) : List Char :=
  cs.dropWhile (fun c => c = ' ' || c = '\n' || c = '\t' || c = '\r')

/-- Value of a hexadecimal digit character, if it is one. -/
def hexCharVal (c : Char) : Option Nat :=
  if '0' ≤ c ∧ c ≤ '9' then some (c.toNat - 48)
  else if 'a' ≤ c ∧ c ≤ 'f' then some (c.toNat - 87)
  else if 'A' ≤ c ∧ c ≤ 'F' then some (c.toNat - 55)
  else none

/-- Body of a JSON string literal after the opening quote: returns the
decoded characters and the remainder after the closing quote. -/
def parseJsonStringBody : List Char → Option (List Char × List Char)
  | [] => none
  | '"' :: rest => some ([], rest)
  | '\\' :: e :: rest =>
      match e with
      | '"' => (parseJsonStringBody rest).map (fun p => ('"' :: p.1, p.2))
      | '\\' => (parseJsonStringBody rest).map (fun p => ('\\' :: p.1, p.2))
      | '/' => (parseJsonStringBody rest).map (fun p => ('/' :: p.1, p.2))
      | 'n' => (parseJsonStringBody rest).map (fun p => ('\n' :: p.1, p.2))
      | 't' => (parseJsonStringBody rest).map (fun p => ('\t' :: p.1, p.2))
      | 'r' => (parseJsonStringBody rest).map (fun p => ('\r' :: p.1, p.2))
      | 'b' => (parseJsonStringBody rest).map (fun p => (Char.ofNat 8 :: p.1, p.2))
      | 'f' => (parseJsonStringBody rest).map (fun p => (Char.ofNat 12 :: p.1, p.2))
      | 'u' =>
          match rest with
          | h1 :: h2 :: h3 :: h4 :: rest2 =>
              match hexCharVal h1, hexCharVal h2, hexCharVal h3, hexCharVal h4 with
              | some a, some b, some c, some d =>
                  (parseJsonStringBody rest2).map
                    (fun p => (Char.ofNat (((a * 16 + b) * 16 + c) * 16 + d) :: p.1, p.2))
              | _, _, _, _ => none
          | _ => none
      | _ => none
  | c :: rest =>
      if c.toNat < 32 then none
      else (parseJsonStringBody rest).map (fun p => (c :: p.1, p.2))

/-- Decimal digits at the front of the input, greedily. -/
def takeDigits (cs : List Char) : List Char × List Char :=
  (cs.takeWhile (fun c => '0' ≤ c && c ≤ '9'), cs.dropWhile (fun c => '0' ≤ c && c ≤ '9'))

/-- Natural number denoted by a list of decimal digit characters. -/
def digitsToNat (ds : List Char) : Nat :=
  ds.foldl (fun acc c => acc * 10 + (c.toNat - 48)) 0

mutual

/-- One JSON value at the front of the input (whitespace already skipped),
with the remainder.  Fuel bounds the nesting depth; callers supply more
fuel than the input length, so it never runs out on valid input. -/
def parseJsonVal : Nat → List Char → Option (Json × List Char)
  | 0, _ => none
  | _ + 1, 'n' :: 'u' :: 'l' :: 'l' :: rest => some (Json.null, rest)
  | _ + 1, 't' :: 'r' :: 'u' :: 'e' :: rest => some (Json.bool true, rest)
  | _ + 1, 'f' :: 'a' :: 'l' :: 's' :: 'e' :: rest => some (Json.bool false, rest)
  | _ + 1, '"' :: rest =>
      (parseJsonStringBody rest).map (fun p => (Json.str (String.mk p.1), p.2))
  | fuel + 1, '[' :: rest =>
      match skipJsonWs rest with
      | ']' :: rest2 => some (Json.arr [], rest2)
      | cs => (parseJsonArrItems fuel cs).map (fun p => (Json.arr p.1, p.2))
  | fuel + 1, '\x7b' :: rest =>
      match skipJsonWs rest with
      | '\x7d' :: rest2 => some (Json.obj [], rest2)
      | cs => (parseJsonObjFields fuel cs).map (fun p => (Json.obj p.1, p.2))
  | _ + 1, '-' :: rest =>
      match takeDigits rest with
      | ([], _) => none
      | (ds, rest2) => some (Json.num (-(digitsToNat ds : Int)), rest2)
  | _ + 1, c :: rest =>
      if '0' ≤ c ∧ c ≤ '9' then
        match takeDigits (c :: rest) with
        | (ds, rest2) => some (Json.num (digitsToNat ds : Int), rest2)
      else none
  | _ + 1, [] => none

/-- Comma-separated JSON values up to the closing bracket of an array. -/
def parseJsonArrItems : Nat → List Char → Option (List Json × List Char)
  | 0, _ => none
  | fuel + 1, cs =>
      match parseJsonVal fuel cs with
      | none => none
      | some (v, rest) =>
          match skipJsonWs rest with
          | ',' :: rest2 =>
              (parseJsonArrItems fuel (skipJsonWs rest2)).map
                (fun p => (v :: p.1, p.2))
          | ']' :: rest2 => some ([v], rest2)
          | _ => none

/-- Comma-separated key-value pairs up to the closing brace of an object. -/
def parseJsonObjFields : Nat → List Char → Option (List (String × Json) × List Char)
  | 0, _ => none
  | fuel + 1, cs =>
      match cs with
      | '"' :: cs2 =>
          match parseJsonStringBody cs2 with
          | none => none
          | some (kChars, rest) =>
              match skipJsonWs rest with
              | ':' :: rest2 =>
                  match parseJsonVal fuel (skipJsonWs rest2) with
                  | none => none
                  | some (v, rest3) =>
                      match skipJsonWs rest3 with
                      | ',' :: rest4 =>
                          (parseJsonObjFields fuel (skipJsonWs rest4)).map
                            (fun p => ((String.mk kChars, v) :: p.1, p.2))
                      | '\x7d' :: rest4 => some ([(String.mk kChars, v)], rest4)
                      | _ => none
              | _ => none
      | _ => none

end

/-- JSON.parse: none models a thrown SyntaxError.  (Duplicate object keys
and non-integer numbers do not occur in this program's data.) -/
def Json.parse (s : String) : Option Json :=
  match parseJsonVal (s.length + 1) (skipJsonWs s.data) with
  | some (j, rest) => if skipJsonWs rest = [] then some j else none
  | none => none

example : Json.parse "\x7b\"error\": \"not found\"\x7d" =
    some (Json.obj [("error", Json.str "not found")]) := by rfl

example : Json.parse "\x7b\"templates\":[]\x7d" =
    some (Json.obj [("templates", Json.arr [])]) := by rfl

example : Json.parse "\x7b\x7d" = some (Json.obj []) := by rfl

example : Json.parse "not json" = none := by rfl

/-- Whether needle occurs as a contiguous substring of hay. -/
def strContains (hay needle : String) : Bool :=
  (List.range (hay.data.length + 1)).any
    (fun i => needle.data.isPrefixOf (hay.data.drop i))

example : strContains "SFS error 404: x" "404" = true := by decide
example : strContains "abc" "ac" = false := by decide

/-- JavaScript String.prototype.trim, on the ASCII whitespace the
program's inputs contain. -/
def jsTrim (s : String) : String :=
  String.mk (((s.data.dropWhile Char.isWhitespace).reverse.dropWhile
    Char.isWhitespace).reverse)

/-- JavaScript String.prototype.toLowerCase on ASCII text. -/
def jsToLower (s : String) : String := String.mk (s.data.map Char.toLower)

/-- JavaScript String.prototype.startsWith. -/
def jsStartsWith (s p : String) : Bool := p.data.isPrefixOf s.data

/-- JavaScript String.prototype.slice(n) for n ≥ 0, on ASCII text where
UTF-16 code units and characters agree. -/
def jsDrop (s : String) (n : Nat) : String := String.mk (s.data.drop n)

example : jsTrim "  tok  " = "tok" := by rfl
example : jsToLower "BeArEr x" = "bearer x" := by rfl
example : jsDrop "bearer tok" 7 = "tok" := by rfl

/-- The process environment variables index.ts reads.  `none` models an
unset variable. -/
structure Env where
  SFS_API_KEY : Option String := none
  SFS_CLIENT_KEY : Option String := none
  CLOUD_SERVICE : Option String := none
  SSE_LOCAL : Option String := none
  HTTP_STREAMABLE_SERVER : Option String := none
  PORT : Option String := none
  HOST : Option String := none

/-- JavaScript truthiness of a string-or-undefined value: undefined and
the empty string are falsy, every other string is truthy. -/
def truthyStr : Option String → Bool
  | none => false
  | some s => s != ""

/-- JavaScript `a || b` on string-or-undefined values. -/
def jsOrStr (a b : Option String) : Option String :=
  if truthyStr a then a else b

/-- A Node IncomingHttpHeaders entry: a single string or an array of
strings. -/
inductive HeaderValue where
  | single : String → HeaderValue
  | multi : List String → HeaderValue

/-- The inbound headers index.ts consults.  Node lowercases header names,
so lookups by these fixed lowercase names are case-insensitive in the
header name.  `none` models an absent header. -/
structure Headers where
  authHeader : Option HeaderValue := none
  xSendforsignKey : Option HeaderValue := none
  xApiKey : Option HeaderValue := none
  xClientKey : Option HeaderValue := none

/-- JavaScript truthiness of a header value: undefined and "" are falsy;
any array (even empty) is truthy. -/
def hvTruthy : Option HeaderValue → Bool
  | none => false
  | some (.single s) => s != ""
  | some (.multi _) => true

/-- `Array.isArray(v) ? v[0] : v` — v[0] of an empty array is undefined. -/
def hvFirst : HeaderValue → Option String
  | .single s => some s
  | .multi ss => ss.head?

/-- extractApiKey (index.ts lines 16-33): the dedicated headers
x-sendforsign-key / x-api-key win (joined with JavaScript `||`); else a
string Authorization value whose lowercasing starts with "bearer " yields
the rest of the value trimmed; else undefined. -/
def extractApiKey (headers : Headers) : Option String :=
  let headerApiKey :=
    if hvTruthy headers.xSendforsignKey then headers.xSendforsignKey
    else headers.xApiKey
  if hvTruthy headerApiKey then
    match headerApiKey with
    | some v => hvFirst v
    | none => none
  else
    match headers.authHeader with
    | some (.single s) =>
        if jsStartsWith (jsToLower s) "bearer " then some (jsTrim (jsDrop s 7))
        else none
    | _ => none

/-- removeEmptyTopLevel's per-value test (index.ts lines 40-48): v == null
(null or undefined), a string blank after trimming, an empty array, or an
empty non-array object. -/
def isEmptyTopLevelVal : Json → Bool
  | .null => true
  | .str s => jsTrim s == ""
  | .arr xs => xs.isEmpty
  | .obj kvs => kvs.isEmpty
  | .bool _ => false
  | .num _ => false

/-- removeEmptyTopLevel (index.ts lines 35-53): copy the entries whose
value fails every emptiness test, in order. -/
def removeEmptyTopLevel (kvs : List (String × Json)) : List (String × Json) :=
  kvs.filter (fun kv => ! isEmptyTopLevelVal kv.2)

/-- An optional string as the JSON value it contributes to an object
literal (undefined and null both behave as `v == null` there). -/
def jsonOfOpt : Option String → Json
  | none => Json.null
  | some s => Json.str s

/-- The session value authenticate returns, as the object it is in the
source: possibly-cleaned apiKey/clientKey fields. -/
def authenticate (headers : Headers) (env : Env) : Json :=
  let isCloud := env.CLOUD_SERVICE = some "true"
  let apiKeyFromHeader := extractApiKey headers
  let clientKeyFromHeader :=
    if hvTruthy headers.xClientKey then
      match headers.xClientKey with
      | some v => hvFirst v
      | none => none
    else none
  if isCloud then
    if !truthyStr apiKeyFromHeader || !truthyStr clientKeyFromHeader then
      Json.obj (removeEmptyTopLevel
        [("apiKey", jsonOfOpt apiKeyFromHeader),
         ("clientKey", jsonOfOpt clientKeyFromHeader)])
    else
      Json.obj
        [("apiKey", jsonOfOpt apiKeyFromHeader),
         ("clientKey", jsonOfOpt clientKeyFromHeader)]
  else
    Json.obj []

/-- The errors the tools throw, tagged by throw site, carrying the exact
message string of the source. -/
inductive ToolError where
  | invalidArgument : String → ToolError
  | unauthorized : String → ToolError
  | backendError : String → ToolError
  | jsonDecodeError : ToolError
deriving Repr, DecidableEq

/-- The single outbound HTTP request sfsCall issues. -/
structure OutboundRequest where
  endpoint : String
  xSendforsignKeyHeader : String
  contentTypeHeader : String
  body : String
deriving Repr, DecidableEq

/-- What the backend answers: an HTTP status and the raw response body. -/
structure BackendResponse where
  statusCode : Nat
  rawBody : String

/-- The fixed endpoint of sfsCall. -/
def templateEndpoint : String := "https://api.sendforsign.com/api/template"

/-- The request sfsCall assembles (index.ts lines 126-133): POST to the
fixed endpoint, API key in the X-Sendforsign-Key header, JSON content
type, JSON.stringify of the body. -/
def sfsRequest (apiKey : String) (body : Json) : OutboundRequest :=
  { endpoint := templateEndpoint
    xSendforsignKeyHeader := apiKey
    contentTypeHeader := "application/json"
    body := Json.stringifyCompact body }

/-- sfsCall (index.ts lines 121-139): issue the request, parse the
response body as JSON (a parse failure is the json() rejection), then
fail on a non-2xx status with the re-serialized body in the message.
Returns the request issued alongside the outcome. -/
def sfsCall (backend : OutboundRequest → BackendResponse) (apiKey : String)
    (body : Json) : OutboundRequest × Except ToolError Json :=
  let req := sfsRequest apiKey body
  let res := backend req
  match Json.parse res.rawBody with
  | none => (req, Except.error ToolError.jsonDecodeError)
  | some json =>
      if res.statusCode < 200 ∨ res.statusCode ≥ 300 then
        (req, Except.error (ToolError.backendError
          ("SFS error " ++ toString res.statusCode ++ ": " ++ Json.stringifyCompact json)))
      else (req, Except.ok json)

/-- asText (index.ts lines 141-143): JSON.stringify(data, null, 2). -/
def asText (data : Json) : String := Json.stringifyPretty data

/-- The Unauthorized message both tools throw. -/
def unauthorizedMsg : String := "Unauthorized - API key and client key are required"

/-- The InvalidArgument message sfs_read_template throws. -/
def missingTemplateKeyMsg : String := "Missing required argument \"templateKey\""

/-- The body sfs_list_templates builds (index.ts lines 162-164):
data = removeEmptyTopLevel of a clientKey then action: "list" object. -/
def listTemplatesBody (clientKey : Option String) : Json :=
  Json.obj [("data", Json.obj (removeEmptyTopLevel
    [("clientKey", jsonOfOpt clientKey), ("action", Json.str "list")]))]

/-- sfs_list_templates.execute (index.ts lines 151-167).  The session is
in scope but the body never reads it: credentials come from the
environment and the optional clientKey argument.  Returns the outbound
requests issued (none when it throws first) and the outcome. -/
def sfs_list_templates_execute (_session : Json) (env : Env)
    (backend : OutboundRequest → BackendResponse) (clientKeyArg : Option String) :
    List OutboundRequest × Except ToolError String :=
  let apiKey := env.SFS_API_KEY
  let clientKey := jsOrStr clientKeyArg env.SFS_CLIENT_KEY
  if !truthyStr apiKey || !truthyStr clientKey then
    ([], Except.error (ToolError.unauthorized unauthorizedMsg))
  else
    let r := sfsCall backend (apiKey.getD "") (listTemplatesBody clientKey)
    ([r.1], r.2.map asText)

/-- The body sfs_read_template builds (index.ts lines 192-198):
data = removeEmptyTopLevel of action: "read", clientKey, and a nested
template object holding the templateKey. -/
def readTemplateBody (templateKey : String) (clientKey : Option String) : Json :=
  Json.obj [("data", Json.obj (removeEmptyTopLevel
    [("action", Json.str "read"), ("clientKey", jsonOfOpt clientKey),
     ("template", Json.obj [("templateKey", Json.str templateKey)])]))]

/-- sfs_read_template.execute (index.ts lines 177-201).  templateKey is
checked (undefined or blank throws) before the credentials are read;
the session is again unused.  -/
def sfs_read_template_execute (_session : Json) (env : Env)
    (backend : OutboundRequest → BackendResponse)
    (templateKeyArg : Option String) (clientKeyArg : Option String) :
    List OutboundRequest × Except ToolError String :=
  match templateKeyArg with
  | none => ([], Except.error (ToolError.invalidArgument missingTemplateKeyMsg))
  | some templateKey =>
    if templateKey = "" ∨ jsTrim templateKey = "" then
      ([], Except.error (ToolError.invalidArgument missingTemplateKeyMsg))
    else
      let apiKey := env.SFS_API_KEY
      let clientKey := jsOrStr clientKeyArg env.SFS_CLIENT_KEY
      if !truthyStr apiKey || !truthyStr clientKey then
        ([], Except.error (ToolError.unauthorized unauthorizedMsg))
      else
        let r := sfsCall backend (apiKey.getD "") (readTemplateBody templateKey clientKey)
        ([r.1], r.2.map asText)

/-- A tool call in httpStream (cloud) mode: FastMCP runs authenticate on
the inbound headers and hands the session to execute (which ignores it). -/
def cloudListTemplatesCall (headers : Headers) (env : Env)
    (backend : OutboundRequest → BackendResponse) (clientKeyArg : Option String) :
    List OutboundRequest × Except ToolError String :=
  sfs_list_templates_execute (authenticate headers env) env backend clientKeyArg

/-- The two transports server.start can be given. -/
inductive TransportType where
  | stdio : TransportType
  | httpStream : TransportType
deriving Repr, DecidableEq

/-- Transport selection (index.ts lines 213-228). -/
def selectedTransport (env : Env) : TransportType :=
  if env.CLOUD_SERVICE = some "true" ∨ env.SSE_LOCAL = some "true" ∨
      env.HTTP_STREAMABLE_SERVER = some "true" then
    TransportType.httpStream
  else TransportType.stdio

/-- HOST (index.ts lines 205-208): "0.0.0.0" when CLOUD_SERVICE is
"true", else the HOST variable when truthy, else "localhost". -/
def resolvedHost (env : Env) : String :=
  if env.CLOUD_SERVICE = some "true" then "0.0.0.0"
  else match jsOrStr env.HOST (some "localhost") with
    | some h => h
    | none => "localhost"

/-- PORT (index.ts line 204): Number(process.env.PORT || 3000), modelled
on unset/empty (default 3000) and decimal strings; `none` is NaN. -/
def resolvedPort (env : Env) : Option Nat :=
  match env.PORT with
  | none => some 3000
  | some s => if s = "" then some 3000 else s.toNat?

/-- The clientKey resolution order the specification claims: the
dedicated inbound header value first, else the per-call clientKey
argument, else the SFS_CLIENT_KEY environment variable, else undefined.
Stated from the spec's words, for comparison with the implementation. -/
def specEffectiveClientKey (headers : Headers) (clientKeyArg : Option String)
    (env : Env) : Option String :=
  match (match headers.xClientKey with | some v => hvFirst v | none => none) with
  | some v => some v
  | none =>
      match clientKeyArg with
      | some a => some a
      | none => env.SFS_CLIENT_KEY

/-- A backend stub answering 200 with an empty JSON object. -/
def backend200 : OutboundRequest → BackendResponse := fun _ => ⟨200, "\x7b\x7d"⟩

/-- A backend stub answering 200 with an empty template list. -/
def backend200T : OutboundRequest → BackendResponse :=
  fun _ => ⟨200, "\x7b\"templates\":[]\x7d"⟩

/-- A backend stub answering 404 with a body whose raw text has an extra
space, so it differs from its compact re-serialization. -/
def backend404sp : OutboundRequest → BackendResponse :=
  fun _ => ⟨404, "\x7b\"error\": \"not found\"\x7d"⟩

/-- A backend stub answering 404 with a compact body. -/
def backend404c : OutboundRequest → BackendResponse :=
  fun _ => ⟨404, "\x7b\"error\":\"not found\"\x7d"⟩

/-- An environment holding only an API key. -/
def envOnlyApi : Env := { SFS_API_KEY := some "A" }

/-- An environment holding an API key and a client key. -/
def envApiClient : Env := { SFS_API_KEY := some "A", SFS_CLIENT_KEY := some "C" }

/-- Cloud-mode environment with API key "A" and client key "E". -/
def envCloudAE : Env :=
  { SFS_API_KEY := some "A", SFS_CLIENT_KEY := some "E", CLOUD_SERVICE := some "true" }

/-- Cloud-mode environment with API key "E2" and client key "C". -/
def envCloudE2 : Env :=
  { SFS_API_KEY := some "E2", SFS_CLIENT_KEY := some "C", CLOUD_SERVICE := some "true" }

/-- An environment that only sets SSE_LOCAL=true. -/
def envSseOnly : Env := { SSE_LOCAL := some "true" }

/-- Inbound headers carrying only x-client-key: H. -/
def hdrClientH : Headers := { xClientKey := some (HeaderValue.single "H") }

/-- Inbound headers carrying only x-sendforsign-key: H2. -/
def hdrApiH2 : Headers := { xSendforsignKey := some (HeaderValue.single "H2") }

lemma sfsCall_fst (backend : OutboundRequest → BackendResponse) (ak : String)
    (body : Json) : (sfsCall backend ak body).1 = sfsRequest ak body := by
  unfold sfsCall
  cases hp : Json.parse ((backend (sfsRequest ak body)).rawBody) with
  | none => simp [hp]
  | some j => simp only [hp]; split <;> rfl

lemma sfsCall_snd_err (backend : OutboundRequest → BackendResponse) (ak : String)
    (body : Json) (j : Json)
    (hp : Json.parse ((backend (sfsRequest ak body)).rawBody) = some j)
    (hs : (backend (sfsRequest ak body)).statusCode < 200 ∨
      (backend (sfsRequest ak body)).statusCode ≥ 300) :
    (sfsCall backend ak body).2 = Except.error (ToolError.backendError
      ("SFS error " ++ toString (backend (sfsRequest ak body)).statusCode ++ ": " ++
        Json.stringifyCompact j)) := by
  unfold sfsCall
  simp only [hp]
  rw [if_pos hs]

lemma sfsCall_snd_ok (backend : OutboundRequest → BackendResponse) (ak : String)
    (body : Json) (j : Json)
    (hp : Json.parse ((backend (sfsRequest ak body)).rawBody) = some j)
    (hs1 : 200 ≤ (backend (sfsRequest ak body)).statusCode)
    (hs2 : (backend (sfsRequest ak body)).statusCode < 300) :
    (sfsCall backend ak body).2 = Except.ok j := by
  unfold sfsCall
  simp only [hp]
  rw [if_neg (by omega)]

lemma list_templates_run (s : Json) (env : Env)
    (backend : OutboundRequest → BackendResponse) (clientKeyArg : Option String)
    (h1 : truthyStr env.SFS_API_KEY = true)
    (h2 : truthyStr (jsOrStr clientKeyArg env.SFS_CLIENT_KEY) = true) :
    sfs_list_templates_execute s env backend clientKeyArg =
      ([sfsRequest (env.SFS_API_KEY.getD "")
          (listTemplatesBody (jsOrStr clientKeyArg env.SFS_CLIENT_KEY))],
       (sfsCall backend (env.SFS_API_KEY.getD "")
          (listTemplatesBody (jsOrStr clientKeyArg env.SFS_CLIENT_KEY))).2.map asText) := by
  unfold sfs_list_templates_execute
  simp [h1, h2, sfsCall_fst]

lemma read_template_run (s : Json) (env : Env)
    (backend : OutboundRequest → BackendResponse)
    (templateKey : String) (clientKeyArg : Option String)
    (htk : ¬ (templateKey = "" ∨ jsTrim templateKey = ""))
    (h1 : truthyStr env.SFS_API_KEY = true)
    (h2 : truthyStr (jsOrStr clientKeyArg env.SFS_CLIENT_KEY) = true) :
    sfs_read_template_execute s env backend (some templateKey) clientKeyArg =
      ([sfsRequest (env.SFS_API_KEY.getD "")
          (readTemplateBody templateKey (jsOrStr clientKeyArg env.SFS_CLIENT_KEY))],
       (sfsCall backend (env.SFS_API_KEY.getD "")
          (readTemplateBody templateKey (jsOrStr clientKeyArg env.SFS_CLIENT_KEY))).2.map asText) := by
  unfold sfs_read_template_execute
  simp only [if_neg htk]
  simp [h1, h2, sfsCall_fst]

/-- C4: for both operations, whenever the resolved apiKey or the resolved
clientKey is undefined or the empty string (JavaScript-falsy), the call
fails with the Unauthorized error and no outbound HTTP request is issued
(the request list is empty).  For sfs_read_template this is stated for a
present, non-blank templateKey, whose own validation precedes this check. -/
theorem C4_unauthorized_no_call (s : Json) (env : Env)
    (backend : OutboundRequest → BackendResponse) (clientKeyArg : Option String)
    (h : truthyStr env.SFS_API_KEY = false ∨
      truthyStr (jsOrStr clientKeyArg env.SFS_CLIENT_KEY) = false) :
    sfs_list_templates_execute s env backend clientKeyArg =
      ([], Except.error (ToolError.unauthorized unauthorizedMsg)) ∧
    ∀ tk : String, ¬ (tk = "" ∨ jsTrim tk = "") →
      sfs_read_template_execute s env backend (some tk) clientKeyArg =
        ([], Except.error (ToolError.unauthorized unauthorizedMsg)) := by
  constructor
  · unfold sfs_list_templates_execute
    rcases h with h | h <;> simp [h]
  · intro tk htk
    simp only [sfs_read_template_execute, if_neg htk]
    rcases h with h | h <;> simp [h]

/-- C4 witness: with an empty environment and no argument, both tools
fail Unauthorized and issue no request. -/
theorem C4_unauthorized_no_call_witness :
    sfs_list_templates_execute (Json.obj []) {} backend200 none =
      ([], Except.error (ToolError.unauthorized unauthorizedMsg)) ∧
    sfs_read_template_execute (Json.obj []) {} backend200 (some "tk") none =
      ([], Except.error (ToolError.unauthorized unauthorizedMsg)) := by
  have h := C4_unauthorized_no_call (Json.obj []) {} backend200 none (Or.inl (by rfl))
  exact ⟨h.1, h.2 "tk" (by decide)⟩

example : ¬ ("tk" = "" ∨ jsTrim "tk" = "") := by decide

/-- C5: sfs_read_template with templateKey missing or blank after
trimming fails with the InvalidArgument error — which names the field and
differs from the Unauthorized error — and issues no outbound request; it
does so for every environment, even one with no credentials, so the check
precedes credential resolution. -/
theorem C5_invalid_argument_no_call (s : Json) (env : Env)
    (backend : OutboundRequest → BackendResponse)
    (templateKeyArg clientKeyArg : Option String)
    (h : templateKeyArg = none ∨ jsTrim (templateKeyArg.getD "") = "") :
    sfs_read_template_execute s env backend templateKeyArg clientKeyArg =
      ([], Except.error (ToolError.invalidArgument missingTemplateKeyMsg)) ∧
    missingTemplateKeyMsg ≠ unauthorizedMsg ∧
    strContains missingTemplateKeyMsg "templateKey" = true := by
  refine ⟨?_, by decide, by decide⟩
  cases templateKeyArg with
  | none => rfl
  | some tk =>
      rcases h with h | h
      · exact absurd h (by simp)
      · simp only [sfs_read_template_execute,
          if_pos (Or.inr (show jsTrim tk = "" by simpa using h))]

/-- C5 witness: a blank templateKey in a credential-less environment is
rejected as InvalidArgument, not Unauthorized. -/
theorem C5_invalid_argument_no_call_witness :
    sfs_read_template_execute (Json.obj []) {} backend200 (some "   ") none =
      ([], Except.error (ToolError.invalidArgument missingTemplateKeyMsg)) ∧
    missingTemplateKeyMsg ≠ unauthorizedMsg ∧
    strContains missingTemplateKeyMsg "templateKey" = true :=
  C5_invalid_argument_no_call (Json.obj []) {} backend200 (some "   ") none
    (Or.inr (by rfl))

/-- C10: extractApiKey prefers a dedicated API-key header over an
Authorization bearer value; the x-sendforsign-key header wins first and
is returned untrimmed (first element when multi-valued), then x-api-key;
only when neither is truthy does a string Authorization value matched
case-insensitively against the "bearer " prefix yield its remainder
trimmed.  The final conjunct exercises the mixed-case, padded form. -/
theorem C10_extractApiKey_order :
    (∀ h : Headers, ∀ s : String, h.xSendforsignKey = some (HeaderValue.single s) →
      s ≠ "" → extractApiKey h = some s) ∧
    (∀ h : Headers, ∀ s : String, ∀ ss : List String,
      h.xSendforsignKey = some (HeaderValue.multi (s :: ss)) →
      extractApiKey h = some s) ∧
    (∀ h : Headers, ∀ s : String, hvTruthy h.xSendforsignKey = false →
      h.xApiKey = some (HeaderValue.single s) → s ≠ "" → extractApiKey h = some s) ∧
    (∀ h : Headers, ∀ a : String, hvTruthy h.xSendforsignKey = false →
      hvTruthy h.xApiKey = false → h.authHeader = some (HeaderValue.single a) →
      jsStartsWith (jsToLower a) "bearer " = true →
      extractApiKey h = some (jsTrim (jsDrop a 7))) ∧
    extractApiKey { authHeader := some (HeaderValue.single "BeArEr   tok  ") } =
      some "tok" := by
  refine ⟨?_, ?_, ?_, ?_, by rfl⟩
  · intro h s hs hne
    unfold extractApiKey
    simp only [hs]
    simp [hvTruthy, hvFirst, hne]
  · intro h s ss hs
    unfold extractApiKey
    simp only [hs]
    simp [hvTruthy, hvFirst]
  · intro h s hsf hx hne
    unfold extractApiKey
    simp only [hsf, hx]
    simp [hvTruthy, hvFirst, hne]
  · intro h a hsf hx ha hb
    unfold extractApiKey
    simp [hsf, hx, ha, hb]

/-- C10 witness: concrete instances of each conjunct. -/
theorem C10_extractApiKey_order_witness :
    extractApiKey { xSendforsignKey := some (HeaderValue.single " K "),
                    authHeader := some (HeaderValue.single "Bearer other") } =
      some " K " ∧
    extractApiKey { xSendforsignKey := some (HeaderValue.multi ["k1", "k2"]) } =
      some "k1" ∧
    extractApiKey { xApiKey := some (HeaderValue.single "AK"),
                    authHeader := some (HeaderValue.single "Bearer other") } =
      some "AK" ∧
    extractApiKey { authHeader := some (HeaderValue.single "Bearer   tok  ") } =
      some "tok" := by
  refine ⟨?_, ?_, ?_, ?_⟩
  · exact C10_extractApiKey_order.1 _ " K " rfl (by decide)
  · exact C10_extractApiKey_order.2.1 _ "k1" ["k2"] rfl
  · exact C10_extractApiKey_order.2.2.1 _ "AK" rfl rfl (by decide)
  · have h := C10_extractApiKey_order.2.2.2.1
      { authHeader := some (HeaderValue.single "Bearer   tok  ") }
      "Bearer   tok  " rfl rfl rfl (by rfl)
    simpa using h

/-- C6: removeEmptyTopLevel yields a sublist of the entries whose
membership keeps exactly the values that are not null/undefined, not a
string blank after trimming, not an empty array and not an empty
non-array object; a field holding a non-empty nested object survives
unchanged (no recursive pruning); and list_templates with clientKey
"abc" serializes an outbound body whose data object is exactly
clientKey "abc", action "list". -/
theorem C6_removeEmptyTopLevel_exact :
    (∀ kvs : List (String × Json), List.Sublist (removeEmptyTopLevel kvs) kvs) ∧
    (∀ kvs : List (String × Json), ∀ k : String, ∀ v : Json,
      ((k, v) ∈ removeEmptyTopLevel kvs ↔
        (k, v) ∈ kvs ∧ v ≠ Json.null ∧
          (∀ s : String, v = Json.str s → jsTrim s ≠ "") ∧
          v ≠ Json.arr [] ∧ v ≠ Json.obj [])) ∧
    (∀ k : String, ∀ inner : List (String × Json), inner ≠ [] →
      removeEmptyTopLevel [(k, Json.obj inner)] = [(k, Json.obj inner)]) ∧
    (sfs_list_templates_execute (Json.obj []) envOnlyApi backend200 (some "abc")).1 =
      [{ endpoint := templateEndpoint, xSendforsignKeyHeader := "A",
         contentTypeHeader := "application/json",
         body := "\x7b\"data\":\x7b\"clientKey\":\"abc\",\"action\":\"list\"\x7d\x7d" }] := by
  refine ⟨?_, ?_, ?_, by rfl⟩
  · intro kvs
    exact List.filter_sublist kvs
  · intro kvs k v
    unfold removeEmptyTopLevel
    rw [List.mem_filter]
    apply and_congr_right
    intro _
    cases v <;> simp [isEmptyTopLevelVal]
  · intro k inner h
    cases inner with
    | nil => exact absurd rfl h
    | cons a t => rfl

/-- C6 witness: a nested object containing only a blank-string field is
itself non-empty, so the top-level entry survives with its inner blank
field untouched. -/
theorem C6_removeEmptyTopLevel_exact_witness :
    removeEmptyTopLevel [("a", Json.obj [("b", Json.str "")])] =
      [("a", Json.obj [("b", Json.str "")])] :=
  C6_removeEmptyTopLevel_exact.2.2.1 "a" [("b", Json.str "")] (by simp)

/-- C8: whenever credentials resolve and the backend answers a 2xx
status with a JSON body, sfs_list_templates returns exactly the parsed
response re-serialized by JSON.stringify(_, null, 2) — no reshaping. -/
theorem C8_success_pretty (s : Json) (env : Env)
    (backend : OutboundRequest → BackendResponse) (clientKeyArg : Option String)
    (h1 : truthyStr env.SFS_API_KEY = true)
    (h2 : truthyStr (jsOrStr clientKeyArg env.SFS_CLIENT_KEY) = true) :
    ∀ req ∈ (sfs_list_templates_execute s env backend clientKeyArg).1, ∀ j : Json,
      Json.parse (backend req).rawBody = some j →
      200 ≤ (backend req).statusCode → (backend req).statusCode < 300 →
      (sfs_list_templates_execute s env backend clientKeyArg).2 =
        Except.ok (Json.stringifyPretty j) := by
  intro req hreq j hp hs1 hs2
  rw [list_templates_run s env backend clientKeyArg h1 h2] at hreq ⊢
  simp only [List.mem_singleton] at hreq
  subst hreq
  rw [sfsCall_snd_ok _ _ _ j hp hs1 hs2]
  rfl

/-- C8 witness: a 200 response with body containing an empty template
list is relayed as its two-space-indented pretty printing. -/
theorem C8_success_pretty_witness :
    (sfs_list_templates_execute (Json.obj []) envApiClient backend200T none).2 =
      Except.ok "\x7b\n  \"templates\": []\n\x7d" := by
  have h := C8_success_pretty (Json.obj []) envApiClient backend200T none
    (by rfl) (by rfl) (sfsRequest "A" (listTemplatesBody (some "C")))
    (by decide) (Json.obj [("templates", Json.arr [])]) (by rfl)
    (by decide) (by decide)
  exact h.trans (by rfl)

/-- C9 counterexample: with only SSE_LOCAL=true in the environment the
server takes the httpStream transport, yet the listen host is
"localhost", not the "0.0.0.0" the claim requires in networked mode. -/
theorem C9_counterexample :
    selectedTransport envSseOnly = TransportType.httpStream ∧
    resolvedHost envSseOnly = "localhost" ∧
    ("localhost" : String) ≠ "0.0.0.0" := by
  refine ⟨by rfl, by rfl, by decide⟩

/-- C9 amended: the server takes httpStream when any of CLOUD_SERVICE,
SSE_LOCAL or HTTP_STREAMABLE_SERVER is "true"; the host is forced to
"0.0.0.0" only when CLOUD_SERVICE is "true", and otherwise — even when
httpStream was selected by the other two flags — it is the HOST variable
when non-empty, else "localhost"; the port defaults to 3000 when PORT is
unset or empty. -/
theorem C9_transport_amended (env : Env) :
    (selectedTransport env = TransportType.httpStream ↔
      (env.CLOUD_SERVICE = some "true" ∨ env.SSE_LOCAL = some "true" ∨
        env.HTTP_STREAMABLE_SERVER = some "true")) ∧
    (env.CLOUD_SERVICE = some "true" → resolvedHost env = "0.0.0.0") ∧
    (env.CLOUD_SERVICE ≠ some "true" →
      ((env.HOST = none ∨ env.HOST = some "") → resolvedHost env = "localhost") ∧
      (∀ hh : String, env.HOST = some hh → hh ≠ "" → resolvedHost env = hh)) ∧
    ((env.PORT = none ∨ env.PORT = some "") → resolvedPort env = some 3000) := by
  refine ⟨?_, ?_, ?_, ?_⟩
  · unfold selectedTransport
    split <;> simp_all
  · intro h
    unfold resolvedHost
    rw [if_pos h]
  · intro h
    constructor
    · intro hh
      unfold resolvedHost
      rw [if_neg h]
      rcases hh with hh | hh <;> simp [hh, jsOrStr, truthyStr]
    · intro hh hEq hne
      unfold resolvedHost
      rw [if_neg h]
      simp [hEq, jsOrStr, truthyStr, hne]
  · intro h
    rcases h with h | h <;> simp [resolvedPort, h]

/-- C9 witness: concrete instances of every conjunct of the amended
transport-selection statement. -/
theorem C9_transport_amended_witness :
    selectedTransport { CLOUD_SERVICE := some "true" } = TransportType.httpStream ∧
    resolvedHost { CLOUD_SERVICE := some "true" } = "0.0.0.0" ∧
    resolvedHost envSseOnly = "localhost" ∧
    resolvedPort envSseOnly = some 3000 := by
  refine ⟨?_, ?_, ?_, ?_⟩
  · exact (C9_transport_amended _).1.mpr (Or.inl rfl)
  · exact (C9_transport_amended _).2.1 rfl
  · exact ((C9_transport_amended envSseOnly).2.2.1 (by decide)).1 (Or.inl rfl)
  · exact (C9_transport_amended envSseOnly).2.2.2 (Or.inl rfl)

/-- C7 counterexample: the backend answers 404 with the valid JSON body
text containing a space after the colon; the operation does fail, but
its message carries JSON.stringify of the parsed body — the compact
re-serialization — which does not contain the literal raw body text. -/
theorem C7_counterexample :
    Json.parse "\x7b\"error\": \"not found\"\x7d" =
      some (Json.obj [("error", Json.str "not found")]) ∧
    (sfs_list_templates_execute (Json.obj []) envApiClient backend404sp none).1 =
      [sfsRequest "A" (listTemplatesBody (some "C"))] ∧
    (sfs_list_templates_execute (Json.obj []) envApiClient backend404sp none).2 =
      Except.error (ToolError.backendError
        "SFS error 404: \x7b\"error\":\"not found\"\x7d") ∧
    strContains "SFS error 404: \x7b\"error\":\"not found\"\x7d"
      "\x7b\"error\": \"not found\"\x7d" = false := by
  refine ⟨by rfl, by rfl, by rfl, by decide⟩

/-- C7 amended: on a non-2xx status whose body parses as JSON, the
operation fails with a BackendError whose message carries the numeric
status code and the parsed body re-serialized compactly by
JSON.stringify — which equals the raw body text exactly when that text
is already in compact form. -/
theorem C7_backend_error (s : Json) (env : Env)
    (backend : OutboundRequest → BackendResponse) (clientKeyArg : Option String)
    (h1 : truthyStr env.SFS_API_KEY = true)
    (h2 : truthyStr (jsOrStr clientKeyArg env.SFS_CLIENT_KEY) = true) :
    ∀ req ∈ (sfs_list_templates_execute s env backend clientKeyArg).1, ∀ j : Json,
      Json.parse (backend req).rawBody = some j →
      ((backend req).statusCode < 200 ∨ (backend req).statusCode ≥ 300) →
      (sfs_list_templates_execute s env backend clientKeyArg).2 =
        Except.error (ToolError.backendError ("SFS error " ++
          toString (backend req).statusCode ++ ": " ++ Json.stringifyCompact j)) := by
  intro req hreq j hp hs
  rw [list_templates_run s env backend clientKeyArg h1 h2] at hreq ⊢
  simp only [List.mem_singleton] at hreq
  subst hreq
  rw [sfsCall_snd_err _ _ _ j hp hs]
  rfl

/-- C7 witness: with a compact 404 body the message does contain both
the status code and the body text. -/
theorem C7_backend_error_witness :
    (sfs_list_templates_execute (Json.obj []) envApiClient backend404c none).2 =
      Except.error (ToolError.backendError
        "SFS error 404: \x7b\"error\":\"not found\"\x7d") ∧
    strContains "SFS error 404: \x7b\"error\":\"not found\"\x7d" "404" = true ∧
    strContains "SFS error 404: \x7b\"error\":\"not found\"\x7d"
      "\x7b\"error\":\"not found\"\x7d" = true := by
  have h := C7_backend_error (Json.obj []) envApiClient backend404c none
    (by rfl) (by rfl) (sfsRequest "A" (listTemplatesBody (some "C")))
    (by decide) (Json.obj [("error", Json.str "not found")]) (by rfl)
    (Or.inr (by decide))
  exact ⟨h.trans (by rfl), by decide, by decide⟩

/-- C3 counterexample: a whitespace-only clientKey argument is
JavaScript-truthy, so it passes the credential guard, but
removeEmptyTopLevel then prunes it from the data object — an outbound
call is made whose serialized data carries no clientKey field at all. -/
theorem C3_counterexample :
    (sfs_list_templates_execute (Json.obj []) envOnlyApi backend200 (some "   ")).1 =
      [{ endpoint := templateEndpoint, xSendforsignKeyHeader := "A",
         contentTypeHeader := "application/json",
         body := "\x7b\"data\":\x7b\"action\":\"list\"\x7d\x7d" }] ∧
    strContains "\x7b\"data\":\x7b\"action\":\"list\"\x7d\x7d" "clientKey" = false := by
  exact ⟨by rfl, by decide⟩

/-- C3 amended: when either resolved credential is JavaScript-falsy no
request is issued (for either tool); when both are truthy, exactly one
request is issued, carrying the resolved apiKey in its key header and a
data object that contains the clientKey field precisely when the
resolved clientKey is non-blank after trimming — a whitespace-only
clientKey still reaches the wire, with the field pruned. -/
theorem C3_payload_invariant (s : Json) (env : Env)
    (backend : OutboundRequest → BackendResponse) (clientKeyArg : Option String) :
    ((!truthyStr env.SFS_API_KEY ||
        !truthyStr (jsOrStr clientKeyArg env.SFS_CLIENT_KEY)) = true →
      (sfs_list_templates_execute s env backend clientKeyArg).1 = [] ∧
      ∀ tk : String, ¬ (tk = "" ∨ jsTrim tk = "") →
        (sfs_read_template_execute s env backend (some tk) clientKeyArg).1 = []) ∧
    (∀ ck : String, jsOrStr clientKeyArg env.SFS_CLIENT_KEY = some ck →
      truthyStr env.SFS_API_KEY = true → ck ≠ "" →
      ∃ entries : List (String × Json),
        (sfs_list_templates_execute s env backend clientKeyArg).1 =
          [sfsRequest (env.SFS_API_KEY.getD "") (Json.obj [("data", Json.obj entries)])] ∧
        (jsTrim ck ≠ "" → ("clientKey", Json.str ck) ∈ entries) ∧
        (jsTrim ck = "" → ∀ v : Json, ("clientKey", v) ∉ entries)) ∧
    (∀ ck tk : String, jsOrStr clientKeyArg env.SFS_CLIENT_KEY = some ck →
      truthyStr env.SFS_API_KEY = true → ck ≠ "" → ¬ (tk = "" ∨ jsTrim tk = "") →
      ∃ entries : List (String × Json),
        (sfs_read_template_execute s env backend (some tk) clientKeyArg).1 =
          [sfsRequest (env.SFS_API_KEY.getD "") (Json.obj [("data", Json.obj entries)])] ∧
        (jsTrim ck ≠ "" → ("clientKey", Json.str ck) ∈ entries) ∧
        (jsTrim ck = "" → ∀ v : Json, ("clientKey", v) ∉ entries)) := by
  refine ⟨?_, ?_, ?_⟩
  · intro hg
    constructor
    · unfold sfs_list_templates_execute
      simp [hg]
    · intro tk htk
      simp only [sfs_read_template_execute, if_neg htk]
      simp [hg]
  · intro ck hck h1 hne
    have h2 : truthyStr (jsOrStr clientKeyArg env.SFS_CLIENT_KEY) = true := by
      rw [hck]; simpa [truthyStr] using hne
    refine ⟨removeEmptyTopLevel [("clientKey", Json.str ck), ("action", Json.str "list")],
      ?_, ?_, ?_⟩
    · rw [list_templates_run s env backend clientKeyArg h1 h2, hck]
      rfl
    · intro hT
      have hb : (jsTrim ck == "") = false := by simp [hT]
      have hl : (jsTrim "list" == "") = false := by rfl
      simp [removeEmptyTopLevel, List.filter, isEmptyTopLevelVal, hb, hl]
    · intro hT v
      have hb : (jsTrim ck == "") = true := by simp [hT]
      have hl : (jsTrim "list" == "") = false := by rfl
      simp [removeEmptyTopLevel, List.filter, isEmptyTopLevelVal, hb, hl]
  · intro ck tk hck h1 hne htk
    have h2 : truthyStr (jsOrStr clientKeyArg env.SFS_CLIENT_KEY) = true := by
      rw [hck]; simpa [truthyStr] using hne
    refine ⟨removeEmptyTopLevel
      [("action", Json.str "read"), ("clientKey", Json.str ck),
       ("template", Json.obj [("templateKey", Json.str tk)])], ?_, ?_, ?_⟩
    · rw [read_template_run s env backend tk clientKeyArg htk h1 h2, hck]
      rfl
    · intro hT
      have hb : (jsTrim ck == "") = false := by simp [hT]
      have hr : (jsTrim "read" == "") = false := by rfl
      simp [removeEmptyTopLevel, List.filter, isEmptyTopLevelVal, hb, hr]
    · intro hT v
      have hb : (jsTrim ck == "") = true := by simp [hT]
      have hr : (jsTrim "read" == "") = false := by rfl
      simp [removeEmptyTopLevel, List.filter, isEmptyTopLevelVal, hb, hr]

/-- C3 witness: no request with an empty environment; with credentials
present, one request whose data object holds the clientKey field. -/
theorem C3_payload_invariant_witness :
    (sfs_list_templates_execute (Json.obj []) {} backend200 none).1 = [] ∧
    (∃ entries : List (String × Json),
      (sfs_list_templates_execute (Json.obj []) envOnlyApi backend200 (some "abc")).1 =
        [sfsRequest (envOnlyApi.SFS_API_KEY.getD "")
          (Json.obj [("data", Json.obj entries)])] ∧
      (jsTrim "abc" ≠ "" → ("clientKey", Json.str "abc") ∈ entries) ∧
      (jsTrim "abc" = "" → ∀ v : Json, ("clientKey", v) ∉ entries)) := by
  constructor
  · exact ((C3_payload_invariant (Json.obj []) {} backend200 none).1 (by rfl)).1
  · exact (C3_payload_invariant (Json.obj []) envOnlyApi backend200 (some "abc")).2.1
      "abc" rfl rfl (by decide)

/-- C1: evaluation at the failing input.  In cloud mode with inbound
header x-client-key: H and environment client key E (H ≠ E), the session
authenticate builds does hold H — but the tool reads the environment, so
the outbound payload carries E, where the claimed resolution order says
the header value H must be the one sent. -/
theorem C1_code_eval :
    authenticate hdrClientH envCloudAE = Json.obj [("clientKey", Json.str "H")] ∧
    specEffectiveClientKey hdrClientH none envCloudAE = some "H" ∧
    (cloudListTemplatesCall hdrClientH envCloudAE backend200 none).1 =
      [{ endpoint := templateEndpoint, xSendforsignKeyHeader := "A",
         contentTypeHeader := "application/json",
         body := "\x7b\"data\":\x7b\"clientKey\":\"E\",\"action\":\"list\"\x7d\x7d" }] ∧
    strContains "\x7b\"data\":\x7b\"clientKey\":\"E\",\"action\":\"list\"\x7d\x7d"
      "\"clientKey\":\"H\"" = false := by
  refine ⟨by rfl, by rfl, by rfl, by decide⟩

/-- C2: evaluation at the failing input.  In cloud mode with inbound
header x-sendforsign-key: H2 and environment API key E2, extractApiKey
recognizes H2, yet the outbound request's key header carries E2: the
tools read the API key from the environment only, so a recognized
inbound header never reaches the wire. -/
theorem C2_code_eval :
    extractApiKey hdrApiH2 = some "H2" ∧
    (cloudListTemplatesCall hdrApiH2 envCloudE2 backend200 none).1 =
      [{ endpoint := templateEndpoint, xSendforsignKeyHeader := "E2",
         contentTypeHeader := "application/json",
         body := "\x7b\"data\":\x7b\"clientKey\":\"C\",\"action\":\"list\"\x7d\x7d" }] ∧
    ("H2" : String) ≠ "E2" := by
  refine ⟨by rfl, by rfl, by decide⟩
